import Mathlib

/-! Shallow embedding of the yokai fxgrpcserver and fxhttpserver modules:
the interceptor and middleware chain builders, exclusion matching, registry
resolution, lifecycle hooks, panic recovery payloads, metric naming and
metric bucket parsing, translated from src/fxgrpcserver/module.go and
src/unnamed/part_000. -/

/-- Cross-cutting concerns appearing in the composed chains. -/
inductive Concern where
  | recovery
  | requestId
  | tracing
  | logging
  | metrics
  deriving DecidableEq

/-- Configuration keys of the grpc server module read in src/fxgrpcserver/module.go. -/
structure GrpcConfig where
  traceEnabled : Bool
  metricsEnabled : Bool
  traceExclude : List String
  logExclude : List String
  appDebug : Bool
  isTestEnv : Bool
  port : Nat
  bufconnSize : Nat
  metricsNamespace : String
  metricsSubsystem : String
  metricsBuckets : String
  appName : String

/-- Configuration keys of the http server module read in src/unnamed/part_000. -/
structure HttpConfig where
  traceEnabled : Bool
  metricsEnabled : Bool
  traceExclude : List String
  logExclude : List String
  errorsObfuscate : Bool
  errorsStack : Bool
  appDebug : Bool
  isTestEnv : Bool
  port : Nat
  metricsNamespace : String
  metricsSubsystem : String
  metricsBuckets : String
  appName : String

/-- From createInterceptors, src/fxgrpcserver/module.go lines 152-264: the unary chain
starts with the recovery unit, appends the tracing unit when
modules.grpc.server.trace.enabled is set, always appends the logging unit, and appends
the metrics unit when metrics collection is enabled. -/
def createInterceptorsUnary (cfg : GrpcConfig) : List Concern :=
  [Concern.recovery]
    ++ (if cfg.traceEnabled then [Concern.tracing] else [])
    ++ [Concern.logging]
    ++ (if cfg.metricsEnabled then [Concern.metrics] else [])

/-- From createInterceptors, src/fxgrpcserver/module.go lines 152-264: the streaming
chain is appended to in the same order as the unary chain. -/
def createInterceptorsStream (cfg : GrpcConfig) : List Concern :=
  [Concern.recovery]
    ++ (if cfg.traceEnabled then [Concern.tracing] else [])
    ++ [Concern.logging]
    ++ (if cfg.metricsEnabled then [Concern.metrics] else [])

/-- From withDefaultMiddlewares, src/unnamed/part_000 lines 121-191: the request id
middleware is always added first, then the tracer middleware when
modules.http.server.trace.enabled is set, then the request logger middleware, then the
request metrics middleware when metrics collection is enabled. -/
def withDefaultMiddlewares (cfg : HttpConfig) : List Concern :=
  [Concern.requestId]
    ++ (if cfg.traceEnabled then [Concern.tracing] else [])
    ++ [Concern.logging]
    ++ (if cfg.metricsEnabled then [Concern.metrics] else [])

/-- Modelled from the spec for the recovery slot: the http server factory is created
with WithRecovery(true) at src/unnamed/part_000 line 74, and the httpserver module
(code of this repository not under src/) installs the recovery middleware ahead of the
middlewares later added by Use, so the full default chain starts with recovery. -/
def newFxHttpServerMiddlewares (cfg : HttpConfig) : List Concern :=
  Concern.recovery :: withDefaultMiddlewares cfg

/-- Fixed relative order of the four concerns stated by the spec. -/
def concernMasterOrder : List Concern :=
  [Concern.recovery, Concern.tracing, Concern.logging, Concern.metrics]

/-- Which concerns a given grpc configuration enables, following the spec wording:
recovery and logging are unconditional, tracing and metrics are optional. -/
def grpcConcernEnabled (cfg : GrpcConfig) : Concern → Bool
  | Concern.recovery => true
  | Concern.tracing => cfg.traceEnabled
  | Concern.logging => true
  | Concern.metrics => cfg.metricsEnabled
  | Concern.requestId => false

/-- Which concerns a given http configuration enables, following the spec wording. -/
def httpConcernEnabled (cfg : HttpConfig) : Concern → Bool
  | Concern.recovery => true
  | Concern.tracing => cfg.traceEnabled
  | Concern.logging => true
  | Concern.metrics => cfg.metricsEnabled
  | Concern.requestId => true

/-- From src/fxgrpcserver/module.go lines 170-190: every entry of
modules.grpc.server.trace.exclude becomes a FullMethodName filter and the tracing unit
is skipped exactly when one of them matches; FullMethodName compares the full method
name for equality (otelgrpc filters library contract). -/
def grpcTraceExcluded (name : String) (rules : List String) : Bool :=
  rules.any (fun r => r == name)

/-- Modelled from the spec: the Exclude option of the grpc logging unit (grpcserver
module, code of this repository not under src/, wired at src/fxgrpcserver/module.go
line 196) matches the full method name exactly. -/
def grpcLogExcluded (name : String) (rules : List String) : Bool :=
  rules.any (fun r => r == name)

/-- Character list comparison: the first list is an initial segment of the second. -/
def headMatches : List Char → List Char → Bool
  | [], _ => true
  | _ :: _, [] => false
  | p :: ps, c :: cs => p == c && headMatches ps cs

/-- Modelled from the spec overview together with the field names
RequestUriPrefixesToExclude at src/unnamed/part_000 lines 135 and 152: the http tracing
and logging middlewares (httpserver module, code of this repository not under src/)
exclude a request when its URI starts with one of the configured entries. -/
def httpUriExcluded (uri : String) (rules : List String) : Bool :=
  rules.any (fun r => headMatches r.data uri.data)

/-- Modelled from the spec: the grpc logging unit (grpcserver module, code of this
repository not under src/) emits exactly one structured record per call, except that
excluded calls which succeed are not logged; failed calls are always logged. -/
def loggerRecordCount (excluded failed : Bool) : Nat :=
  if excluded && !failed then 0 else 1

/-- Number of log records the grpc logging unit emits for a call, combining the
exclusion wiring of src/fxgrpcserver/module.go line 196 with the record rule. -/
def grpcCallLogCount (cfg : GrpcConfig) (name : String) (failed : Bool) : Nat :=
  loggerRecordCount (grpcLogExcluded name cfg.logExclude) failed

/-- Modelled from the spec: registry resolution (fxgrpcserver registry and fxhttpserver
registry, code of this repository not under src/) walks the registrations in order and
fails with a duplicate registration error when an identity repeats; identities are
strings here (service description identity for grpc, method plus path for http). -/
def resolveAux (seen : List String) : List String → Except String (List String)
  | [] => Except.ok []
  | r :: rs =>
    if r ∈ seen then Except.error "duplicate registration"
    else
      match resolveAux (r :: seen) rs with
      | Except.error e => Except.error e
      | Except.ok rest => Except.ok (r :: rest)

/-- Resolution of a registration list, starting from an empty seen set. -/
def resolveRegistrations (regs : List String) : Except String (List String) :=
  resolveAux [] regs

/-- From NewFxGrpcServer, src/fxgrpcserver/module.go lines 103-111: a resolution error
is returned to the caller of the build step. -/
def newFxGrpcServerBuildError (regs : List String) : Option String :=
  match resolveRegistrations regs with
  | Except.error e => some e
  | Except.ok _ => none

/-- From src/fxgrpcserver/module.go lines 103-146: the lifecycle hooks are appended
only after a successful resolution, so a failed build never reaches the serving hook. -/
def grpcServerCanServe (regs : List String) : Bool :=
  (newFxGrpcServerBuildError regs).isNone

/-- Outcome of the http registration step: what was logged and what was added. -/
structure HttpRegistrationOutcome where
  loggedErrors : List String
  added : List String
  deriving DecidableEq

/-- From withRegisteredResources, src/unnamed/part_000 lines 234-249: a handler
resolution error is logged on the server logger and the registration loop is skipped;
the error is not returned to anyone. -/
def withRegisteredResourcesHandlers (handlers : List String) : HttpRegistrationOutcome :=
  match resolveRegistrations handlers with
  | Except.error e =>
    { loggedErrors := ["cannot resolve router handlers: " ++ e], added := [] }
  | Except.ok hs => { loggedErrors := [], added := hs }

/-- From NewFxHttpServer, src/unnamed/part_000 lines 56-119: only a factory creation
error is returned to the caller of the build step; registration resolution errors never
are. -/
def newFxHttpServerBuildError (factoryError : Option String) (_handlers : List String) :
    Option String :=
  factoryError

/-- From src/unnamed/part_000 lines 95-108: outside the test environment the start hook
always launches the server when the build succeeded, whatever the registration outcome
was. -/
def httpServerStartsServing (isTest : Bool) (factoryError : Option String) : Bool :=
  factoryError.isNone && !isTest

/-- Observable outcome of a start hook: the error it returns, the records it logs and
whether serving begins. -/
structure StartOutcome where
  hookError : Option String
  logged : List String
  serving : Bool
  deriving DecidableEq

/-- From src/fxgrpcserver/module.go lines 114-138: the start hook always returns nil;
in the test environment the bufconn listener is served; otherwise a tcp bind failure is
logged and, with no listener bound, the serve call fails without serving (the serve
behavior on a missing listener is modelled from the spec) and its error is logged too. -/
def grpcOnStart (isTest : Bool) (bindResult : Except String Unit) : StartOutcome :=
  if isTest then { hookError := none, logged := [], serving := true }
  else
    match bindResult with
    | Except.ok _ => { hookError := none, logged := [], serving := true }
    | Except.error _ =>
      { hookError := none,
        logged := ["failed to listen for grpc server", "failed to serve grpc server"],
        serving := false }

/-- From src/unnamed/part_000 lines 95-108: outside the test environment the start hook
launches Start on a background task and discards its error (errcheck disabled), so a
bind failure logs nothing and the hook returns nil; in the test environment nothing is
started at all. -/
def httpOnStart (isTest : Bool) (bindResult : Except String Unit) : StartOutcome :=
  if isTest then { hookError := none, logged := [], serving := false }
  else
    match bindResult with
    | Except.ok _ => { hookError := none, logged := [], serving := true }
    | Except.error _ => { hookError := none, logged := [], serving := false }

/-- Listener bound at start: the in-memory bufconn pipe or a tcp port. -/
inductive ListenerChoice where
  | bufconn (size : Nat)
  | tcp (port : Nat)
  deriving DecidableEq

/-- Default grpc port, src/fxgrpcserver/module.go line 30. -/
def DefaultPort : Nat := 50051

/-- Default bufconn size, src/fxgrpcserver/module.go line 31. -/
def DefaultBufconnSize : Nat := 1024 * 1024

/-- Default http port, src/unnamed/part_000 line 22. -/
def DefaultHttpPort : Nat := 8080

/-- From NewFxGrpcBufconnListener, src/fxgrpcserver/module.go lines 54-61. -/
def newFxGrpcBufconnListenerSize (cfgSize : Nat) : Nat :=
  if cfgSize = 0 then DefaultBufconnSize else cfgSize

/-- From src/fxgrpcserver/module.go lines 114-131: listener selection in the start
hook; the test environment uses the bufconn listener, otherwise tcp on the configured
port, defaulted when zero. -/
def grpcStartListener (isTest : Bool) (cfgPort cfgBufconnSize : Nat) : ListenerChoice :=
  if isTest then ListenerChoice.bufconn (newFxGrpcBufconnListenerSize cfgBufconnSize)
  else ListenerChoice.tcp (if cfgPort = 0 then DefaultPort else cfgPort)

/-- From src/fxgrpcserver/module.go lines 139-145: GracefulStop runs only outside the
test environment. -/
def grpcOnStopDrains (isTest : Bool) : Bool :=
  !isTest

/-- From src/unnamed/part_000 lines 109-115: Shutdown runs only outside the test
environment. -/
def httpOnStopShutsDown (isTest : Bool) : Bool :=
  !isTest

/-- Error payload observed by the caller after a recovered fault. -/
structure ErrorPayload where
  message : String
  hasStack : Bool
  deriving DecidableEq

/-- Modelled from the spec: grpcserver.NewGrpcPanicRecoveryHandler (grpcserver module,
code of this repository not under src/), parametrized by AppDebug as wired at
src/fxgrpcserver/module.go lines 153-167: the recovered fault becomes an internal error
whose payload carries the fault message and stack only in debug mode. -/
def grpcRecoveryPayload (debug : Bool) (faultMsg : String) : ErrorPayload :=
  if debug then { message := faultMsg, hasStack := true }
  else { message := "internal grpc server error", hasStack := false }

/-- From src/unnamed/part_000 lines 77-82: the obfuscation argument handed to
JsonErrorHandler. -/
def jsonErrorHandlerObfuscateArg (cfg : HttpConfig) : Bool :=
  cfg.errorsObfuscate || !cfg.appDebug

/-- From src/unnamed/part_000 lines 77-82: the stack argument handed to
JsonErrorHandler. -/
def jsonErrorHandlerStackArg (cfg : HttpConfig) : Bool :=
  cfg.errorsStack || cfg.appDebug

/-- Modelled from the spec: httpserver.JsonErrorHandler (httpserver module, code of
this repository not under src/) returns a generic message when obfuscation is on and
attaches the stack when the stack flag is on. -/
def jsonErrorHandlerPayload (obfuscate withStack : Bool) (errMsg : String) : ErrorPayload :=
  { message := if obfuscate then "internal server error" else errMsg,
    hasStack := withStack }

/-- Payload produced for a recovered http fault, combining the argument wiring of
src/unnamed/part_000 lines 77-82 with the handler model. -/
def httpFaultPayload (cfg : HttpConfig) (errMsg : String) : ErrorPayload :=
  jsonErrorHandlerPayload (jsonErrorHandlerObfuscateArg cfg) (jsonErrorHandlerStackArg cfg) errMsg

/-- Character map replacing the dash by the underscore. -/
def dashFn (c : Char) : Char :=
  if c = '-' then '_' else c

/-- ReplaceAll of the dash by the underscore, as a character map. -/
def dashToUnderscore (s : String) : String :=
  String.mk (s.data.map dashFn)

/-- Module name constant, src/fxgrpcserver/module.go line 29. -/
def GrpcModuleName : String := "grpcserver"

/-- Module name constant, src/unnamed/part_000 line 21. -/
def HttpModuleName : String := "httpserver"

/-- From src/fxgrpcserver/module.go lines 202-213: the namespace defaults to the
application name when empty, the subsystem defaults to the module name when empty, the
two are joined with an underscore and every dash is replaced by an underscore. -/
def grpcMetricsSubsystemName (cfg : GrpcConfig) : String :=
  dashToUnderscore
    ((if cfg.metricsNamespace = "" then cfg.appName else cfg.metricsNamespace)
      ++ "_"
      ++ (if cfg.metricsSubsystem = "" then GrpcModuleName else cfg.metricsSubsystem))

/-- From src/unnamed/part_000 lines 158-185: the http namespace defaults to the
application name when empty and has every dash replaced by an underscore. -/
def httpMetricsNamespaceName (cfg : HttpConfig) : String :=
  dashToUnderscore (if cfg.metricsNamespace = "" then cfg.appName else cfg.metricsNamespace)

/-- From src/unnamed/part_000 lines 158-185: the http subsystem defaults to the module
name when empty and has every dash replaced by an underscore. -/
def httpMetricsSubsystemName (cfg : HttpConfig) : String :=
  dashToUnderscore (if cfg.metricsSubsystem = "" then HttpModuleName else cfg.metricsSubsystem)

/-- Identity of the metric families exposed by a grpcprom server metrics collector;
every build creates a fresh collector carrying these same family names. -/
def grpcServerMetricsFamily : String := "grpc_server_metrics"

/-- Prometheus registry modelled as the list of registered family names; MustRegister
(prometheus client library contract) faults when a family is already registered. -/
def mustRegister (registry : List String) (family : String) : Except String (List String) :=
  if family ∈ registry then Except.error "duplicate metrics collector registration"
  else Except.ok (family :: registry)

/-- From src/fxgrpcserver/module.go lines 202-239: when metrics collection is enabled
the build creates a fresh collector and registers it unconditionally with MustRegister;
no guard is present. -/
def grpcMetricsRegistrationStep (metricsEnabled : Bool) (registry : List String) :
    Except String (List String) :=
  if metricsEnabled then mustRegister registry grpcServerMetricsFamily
  else Except.ok registry

/-- ReplaceAll of the space by the empty string. -/
def removeSpaces (s : String) : String :=
  String.mk (s.data.filter (fun c => !(c == ' ')))

/-- Split on the comma, as Go strings.Split does for a one-character separator. -/
def splitOnComma (s : String) : List String :=
  s.split (fun c => c == ',')

/-- From src/fxgrpcserver/module.go lines 215-223 and src/unnamed/part_000 lines
169-177: when the bucket configuration string is nonempty, spaces are removed, the
string is split on commas, and entries failing the float parse are discarded; the parse
itself is a parameter because strconv.ParseFloat lives outside the repository. -/
def parseBucketEntries {F : Type} (tryParse : String → Option F) (cfg : String) : List F :=
  if cfg = "" then []
  else (splitOnComma (removeSpaces cfg)).filterMap tryParse

/-- From src/fxgrpcserver/module.go lines 215-227: when nothing parses, the grpc module
falls back to the default prometheus buckets. -/
def grpcMetricsBuckets {F : Type} (tryParse : String → Option F) (defBuckets : List F)
    (cfg : String) : List F :=
  let parsed := parseBucketEntries tryParse cfg
  if parsed.isEmpty then defBuckets else parsed

/-- From src/unnamed/part_000 lines 169-185: the http module passes the parsed list
through with no fallback. -/
def httpMetricsBuckets {F : Type} (tryParse : String → Option F) (cfg : String) : List F :=
  parseBucketEntries tryParse cfg

/-- Concrete grpc configuration used as a witness input. -/
def sampleGrpcConfig : GrpcConfig :=
  { traceEnabled := true, metricsEnabled := true,
    traceExclude := [], logExclude := ["/pkg.Service/Excluded"],
    appDebug := false, isTestEnv := false, port := 0, bufconnSize := 0,
    metricsNamespace := "", metricsSubsystem := "", metricsBuckets := "",
    appName := "app" }

/-- Concrete http configuration used as a counterexample input: debug off while the
stack option is configured on. -/
def sampleHttpConfig : HttpConfig :=
  { traceEnabled := false, metricsEnabled := false,
    traceExclude := [], logExclude := [],
    errorsObfuscate := false, errorsStack := true, appDebug := false,
    isTestEnv := false, port := 0,
    metricsNamespace := "", metricsSubsystem := "", metricsBuckets := "",
    appName := "app" }

/-! Helper lemmas -/

/-- headMatches holds exactly when the second list extends the first. -/
theorem headMatches_iff (ps : List Char) : ∀ cs : List Char,
    headMatches ps cs = true ↔ ∃ rest, cs = ps ++ rest := by
  induction ps with
  | nil =>
    intro cs
    simp [headMatches]
  | cons p ps ih =>
    intro cs
    cases cs with
    | nil => simp [headMatches]
    | cons c cs =>
      simp only [headMatches, Bool.and_eq_true, beq_iff_eq, ih, List.cons_append,
        List.cons.injEq]
      constructor
      · rintro ⟨hpc, rest, hrest⟩
        exact ⟨rest, hpc.symm, hrest⟩
      · rintro ⟨rest, hcp, hrest⟩
        exact ⟨hcp.symm, rest, hrest⟩

/-- The dash map never produces a dash. -/
theorem dash_not_mem_dashToUnderscore (s : String) : '-' ∉ (dashToUnderscore s).data := by
  intro hmem
  have h : '-' ∈ s.data.map dashFn := hmem
  rw [List.mem_map] at h
  obtain ⟨c, _, hc⟩ := h
  by_cases hc2 : c = '-' <;> simp [dashFn, hc2] at hc

/-- Full characterization of registry resolution relative to a seen set. -/
theorem resolveAux_characterization (l : List String) : ∀ seen : List String,
    resolveAux seen l =
      if l.Nodup ∧ ∀ x ∈ l, x ∉ seen then Except.ok l
      else Except.error "duplicate registration" := by
  induction l with
  | nil =>
    intro seen
    simp [resolveAux]
  | cons r rs ih =>
    intro seen
    simp only [resolveAux]
    by_cases hr : r ∈ seen
    · rw [if_pos hr, if_neg]
      rintro ⟨-, hall⟩
      exact hall r (List.mem_cons_self r rs) hr
    · rw [if_neg hr, ih (r :: seen)]
      by_cases hc : rs.Nodup ∧ ∀ x ∈ rs, x ∉ r :: seen
      · rw [if_pos hc, if_pos]
        constructor
        · refine List.nodup_cons.mpr ⟨?_, hc.1⟩
          intro hrrs
          exact hc.2 r hrrs (List.mem_cons_self r seen)
        · intro x hx
          rcases List.mem_cons.mp hx with hxr | hxrs
          · rw [hxr]; exact hr
          · intro hxseen
            exact hc.2 x hxrs (List.mem_cons_of_mem r hxseen)
      · rw [if_neg hc, if_neg]
        rintro ⟨hnd, hall⟩
        apply hc
        have hndrs := List.nodup_cons.mp hnd
        refine ⟨hndrs.2, ?_⟩
        intro x hx hxin
        rcases List.mem_cons.mp hxin with hxr | hxseen
        · rw [hxr] at hx
          exact hndrs.1 hx
        · exact hall x (List.mem_cons_of_mem r hx) hxseen

/-! Claim theorems -/

/-- C1: for every grpc and http configuration, the composed chains equal the fixed
master order Recovery, Tracing, Logging, Metrics filtered to the enabled concerns (the
http chain once its extra request id slot is set aside), so disabling an optional
concern removes it without reordering the remainder; recovery and logging are always
present, tracing and metrics exactly when enabled, in the unary chain, the streaming
chain and the http middleware list. -/
theorem chain_builder_fixed_relative_order (g : GrpcConfig) (h : HttpConfig) :
    createInterceptorsUnary g = concernMasterOrder.filter (grpcConcernEnabled g)
    ∧ createInterceptorsStream g = createInterceptorsUnary g
    ∧ (newFxHttpServerMiddlewares h).filter (fun c => c != Concern.requestId)
        = concernMasterOrder.filter (httpConcernEnabled h)
    ∧ Concern.recovery ∈ createInterceptorsUnary g
    ∧ Concern.logging ∈ createInterceptorsUnary g
    ∧ (Concern.tracing ∈ createInterceptorsUnary g ↔ g.traceEnabled = true)
    ∧ (Concern.metrics ∈ createInterceptorsUnary g ↔ g.metricsEnabled = true)
    ∧ Concern.recovery ∈ newFxHttpServerMiddlewares h
    ∧ Concern.logging ∈ newFxHttpServerMiddlewares h
    ∧ (Concern.tracing ∈ newFxHttpServerMiddlewares h ↔ h.traceEnabled = true)
    ∧ (Concern.metrics ∈ newFxHttpServerMiddlewares h ↔ h.metricsEnabled = true) := by
  cases hg1 : g.traceEnabled <;> cases hg2 : g.metricsEnabled <;>
    cases hh1 : h.traceEnabled <;> cases hh2 : h.metricsEnabled <;>
      simp [createInterceptorsUnary, createInterceptorsStream, newFxHttpServerMiddlewares,
        withDefaultMiddlewares, concernMasterOrder, grpcConcernEnabled, httpConcernEnabled,
        hg1, hg2, hh1, hh2, List.filter] <;> decide

/-- C2 counterexample: in the http module a request URI is excluded by a rule that is
not an exact match of it, refuting exclusion by exact match only. -/
theorem exclusion_http_matches_by_uri_start :
    httpUriExcluded "/healthz/live" ["/healthz"] = true
    ∧ "/healthz/live" ∉ (["/healthz"] : List String) := by
  decide

/-- C2 amended: exclusion in the grpc module (tracing and logging) holds exactly on an
exact full-name match, while exclusion in the http module holds exactly when a
configured entry is an initial segment of the request URI; an empty rule set excludes
nothing anywhere. -/
theorem exclusion_matching_amended (name uri : String) (rules : List String) :
    (grpcTraceExcluded name rules = true ↔ name ∈ rules)
    ∧ (grpcLogExcluded name rules = true ↔ name ∈ rules)
    ∧ (httpUriExcluded uri rules = true ↔ ∃ r ∈ rules, ∃ rest, uri.data = r.data ++ rest)
    ∧ grpcTraceExcluded name [] = false
    ∧ grpcLogExcluded name [] = false
    ∧ httpUriExcluded uri [] = false := by
  refine ⟨?_, ?_, ?_, rfl, rfl, rfl⟩
  · simp [grpcTraceExcluded, List.any_eq_true]
  · simp [grpcLogExcluded, List.any_eq_true]
  · simp only [httpUriExcluded, List.any_eq_true, headMatches_iff]

/-- C3: a call whose full name is in the logging exclusion set produces exactly one log
record when it fails and zero log records when it succeeds. -/
theorem excluded_call_logged_iff_failed (cfg : GrpcConfig) (name : String)
    (hx : grpcLogExcluded name cfg.logExclude = true) :
    grpcCallLogCount cfg name true = 1 ∧ grpcCallLogCount cfg name false = 0 := by
  simp [grpcCallLogCount, loggerRecordCount, hx]

/-- C3 witness: the sample configuration excludes a concrete method name, and that call
is logged exactly once on failure and not at all on success. -/
theorem excluded_call_logged_iff_failed_witness :
    grpcCallLogCount sampleGrpcConfig "/pkg.Service/Excluded" true = 1
    ∧ grpcCallLogCount sampleGrpcConfig "/pkg.Service/Excluded" false = 0 :=
  excluded_call_logged_iff_failed sampleGrpcConfig "/pkg.Service/Excluded" (by decide)

/-- C4 counterexample: in the http module two registrations sharing the method plus
path identity make resolution fail, yet the build returns no error to its caller, the
server still starts serving, and the failure is merely logged. -/
theorem http_duplicate_registration_still_serves :
    resolveRegistrations ["GET /status", "GET /status"] = Except.error "duplicate registration"
    ∧ newFxHttpServerBuildError none ["GET /status", "GET /status"] = none
    ∧ httpServerStartsServing false none = true
    ∧ (withRegisteredResourcesHandlers ["GET /status", "GET /status"]).loggedErrors
        = ["cannot resolve router handlers: duplicate registration"] :=
  ⟨rfl, rfl, rfl, rfl⟩

/-- C4 amended: resolution fails with a duplicate registration error exactly when two
registrations share an identity, and otherwise returns the N distinct registrations in
registration order; in the grpc module that error is returned by the build step and the
server cannot serve, while in the http module the error is only logged, the duplicated
registrations are skipped, and the build still succeeds. -/
theorem registry_resolution_amended (regs : List String) :
    resolveRegistrations regs =
        (if regs.Nodup then Except.ok regs else Except.error "duplicate registration")
    ∧ newFxGrpcServerBuildError regs =
        (if regs.Nodup then none else some "duplicate registration")
    ∧ grpcServerCanServe regs = decide regs.Nodup
    ∧ newFxHttpServerBuildError none regs = none
    ∧ (withRegisteredResourcesHandlers regs).added = (if regs.Nodup then regs else [])
    ∧ (withRegisteredResourcesHandlers regs).loggedErrors =
        (if regs.Nodup then []
         else ["cannot resolve router handlers: duplicate registration"]) := by
  have hchar : resolveRegistrations regs =
      if regs.Nodup then Except.ok regs else Except.error "duplicate registration" := by
    rw [resolveRegistrations, resolveAux_characterization regs []]
    simp
  refine ⟨hchar, ?_, ?_, rfl, ?_, ?_⟩ <;>
    by_cases hnd : regs.Nodup <;>
      simp [newFxGrpcServerBuildError, grpcServerCanServe, withRegisteredResourcesHandlers,
        hchar, hnd]

/-- C5 counterexample: in the http module a bind failure at start is silently
discarded: nothing is logged, even though the hook returns no error and the server does
not serve; this refutes the part of the claim stating the failure is logged. -/
theorem http_bind_failure_not_logged :
    (httpOnStart false (Except.error "listen tcp :8080: address already in use")).logged = []
    ∧ (httpOnStart false (Except.error "listen tcp :8080: address already in use")).hookError
        = none
    ∧ (httpOnStart false (Except.error "listen tcp :8080: address already in use")).serving
        = false :=
  ⟨rfl, rfl, rfl⟩

/-- C5 amended: on a bind failure the start hook of either module returns without
error and the server never transitions to serving; the grpc module logs the failure,
while the http module discards it silently. -/
theorem bind_failure_handling_amended (e : String) :
    (grpcOnStart false (Except.error e)).hookError = none
    ∧ "failed to listen for grpc server" ∈ (grpcOnStart false (Except.error e)).logged
    ∧ (grpcOnStart false (Except.error e)).serving = false
    ∧ (httpOnStart false (Except.error e)).hookError = none
    ∧ (httpOnStart false (Except.error e)).logged = []
    ∧ (httpOnStart false (Except.error e)).serving = false := by
  simp [grpcOnStart, httpOnStart]

/-- C6 counterexample: with debug mode disabled but the stack option configured on, the
http error payload still carries the stack, refuting that fault details appear in the
payload if and only if debug mode is enabled. -/
theorem http_error_payload_stack_without_debug :
    sampleHttpConfig.appDebug = false
    ∧ (httpFaultPayload sampleHttpConfig "fault message").hasStack = true :=
  ⟨rfl, rfl⟩

/-- C6 amended: the grpc recovery payload carries the fault message and stack exactly
when debug mode is enabled and is generic otherwise; the http payload carries the fault
message exactly when debug mode is enabled and obfuscation is not configured, and
carries the stack exactly when debug mode is enabled or the stack option is
configured. -/
theorem fault_payload_amended (msg : String) (cfg : HttpConfig) :
    grpcRecoveryPayload true msg = { message := msg, hasStack := true }
    ∧ grpcRecoveryPayload false msg
        = { message := "internal grpc server error", hasStack := false }
    ∧ (httpFaultPayload cfg msg).hasStack = (cfg.errorsStack || cfg.appDebug)
    ∧ (httpFaultPayload cfg msg).message =
        (if cfg.errorsObfuscate || !cfg.appDebug then "internal server error" else msg) := by
  refine ⟨rfl, rfl, rfl, ?_⟩
  simp [httpFaultPayload, jsonErrorHandlerPayload, jsonErrorHandlerObfuscateArg,
    jsonErrorHandlerStackArg]

/-- C7: in the test environment the grpc start hook serves the bufconn listener (with
the configured size, defaulted when zero) and the stop hooks skip the graceful drain;
outside the test environment start binds tcp on the configured port, defaulted to 50051
when zero, and the stop hooks drain gracefully. -/
theorem lifecycle_test_mode_listeners (p s : Nat) :
    grpcStartListener true p s = ListenerChoice.bufconn (newFxGrpcBufconnListenerSize s)
    ∧ grpcOnStopDrains true = false
    ∧ httpOnStopShutsDown true = false
    ∧ grpcStartListener false 0 s = ListenerChoice.tcp DefaultPort
    ∧ grpcStartListener false (p + 1) s = ListenerChoice.tcp (p + 1)
    ∧ grpcOnStopDrains false = true
    ∧ httpOnStopShutsDown false = true
    ∧ newFxGrpcBufconnListenerSize 0 = 1024 * 1024
    ∧ DefaultPort = 50051 := by
  simp [grpcStartListener, grpcOnStopDrains, httpOnStopShutsDown,
    newFxGrpcBufconnListenerSize, DefaultPort, DefaultBufconnSize]

/-- C8: the joined grpc metric subsystem string and both http metric name strings never
contain a dash and are the dash-to-underscore image of their inputs; an empty
configured namespace defaults to the application name and an empty configured subsystem
defaults to the module name, as shown on configurations with those fields blanked and
on a concrete dashed example. -/
theorem metrics_naming_defaults_and_normalization (g : GrpcConfig) (h : HttpConfig)
    (s : String) :
    (dashToUnderscore s).data = s.data.map dashFn
    ∧ '-' ∉ (dashToUnderscore s).data
    ∧ '-' ∉ (grpcMetricsSubsystemName g).data
    ∧ '-' ∉ (httpMetricsNamespaceName h).data
    ∧ '-' ∉ (httpMetricsSubsystemName h).data
    ∧ grpcMetricsSubsystemName { g with metricsNamespace := "", metricsSubsystem := "" }
        = dashToUnderscore (g.appName ++ "_" ++ GrpcModuleName)
    ∧ httpMetricsNamespaceName { h with metricsNamespace := "" }
        = dashToUnderscore h.appName
    ∧ httpMetricsSubsystemName { h with metricsSubsystem := "" } = HttpModuleName
    ∧ grpcMetricsSubsystemName
        { g with metricsNamespace := "my-app", metricsSubsystem := "grpc-server" }
        = "my_app_grpc_server" := by
  refine ⟨rfl, dash_not_mem_dashToUnderscore s, dash_not_mem_dashToUnderscore _,
    dash_not_mem_dashToUnderscore _, dash_not_mem_dashToUnderscore _, ?_, ?_, rfl, ?_⟩
  · simp [grpcMetricsSubsystemName]
  · simp [httpMetricsNamespaceName]
  · simp [grpcMetricsSubsystemName]
    rfl

/-- C9 counterexample: the metrics registration step is not guarded: a first build with
metrics enabled registers the collector families, and a second build against the same
registry faults with a duplicate registration error instead of being a harmless no-op. -/
theorem repeated_build_metrics_registration_faults :
    grpcMetricsRegistrationStep true [] = Except.ok [grpcServerMetricsFamily]
    ∧ grpcMetricsRegistrationStep true [grpcServerMetricsFamily]
        = Except.error "duplicate metrics collector registration" :=
  ⟨rfl, rfl⟩

/-- C9 amended: each build with metrics enabled unconditionally registers its collector
through MustRegister with no guard; a single build adds exactly one registration of the
collector family, a build with metrics disabled registers nothing, and a repeated build
against a registry already holding the family faults the build. -/
theorem metrics_registration_amended (registry : List String) :
    grpcMetricsRegistrationStep false registry = Except.ok registry
    ∧ grpcMetricsRegistrationStep true registry =
        (if grpcServerMetricsFamily ∈ registry
         then Except.error "duplicate metrics collector registration"
         else Except.ok (grpcServerMetricsFamily :: registry))
    ∧ (grpcServerMetricsFamily :: registry).count grpcServerMetricsFamily
        = registry.count grpcServerMetricsFamily + 1 := by
  refine ⟨rfl, rfl, ?_⟩
  simp [List.count_cons]

/-- C10: bucket parsing removes spaces, splits on commas and keeps exactly the values
of the entries the float parser accepts, for any parser; an empty configuration string
parses to nothing; the grpc module falls back to the default prometheus buckets exactly
when nothing parses, while the http module passes the parsed list through; parsing is a
total function of the configuration, so it never fails the call. -/
theorem metrics_buckets_parsing {F : Type} (tryParse : String → Option F)
    (defBuckets : List F) (cfg : String) (x : F) :
    grpcMetricsBuckets tryParse defBuckets "" = defBuckets
    ∧ httpMetricsBuckets tryParse "" = ([] : List F)
    ∧ (x ∈ parseBucketEntries tryParse cfg ↔
        cfg ≠ "" ∧ ∃ s ∈ splitOnComma (removeSpaces cfg), tryParse s = some x)
    ∧ grpcMetricsBuckets tryParse defBuckets cfg =
        (if (parseBucketEntries tryParse cfg).isEmpty then defBuckets
         else parseBucketEntries tryParse cfg)
    ∧ httpMetricsBuckets tryParse cfg = parseBucketEntries tryParse cfg := by
  refine ⟨?_, ?_, ?_, rfl, rfl⟩
  · simp [grpcMetricsBuckets, parseBucketEntries]
  · simp [httpMetricsBuckets, parseBucketEntries]
  · by_cases hc : cfg = ""
    · simp [parseBucketEntries, hc]
    · simp [parseBucketEntries, hc, List.mem_filterMap]
